import Mathlib

/-!
Shallow embedding of the segment-search core of jefftriplett/django-transcription-demo:
`src/transcripts/search.py` together with the `SearchConfig`, `Transcript` and
`SRTSegment` models of `src/transcripts/models.py`.

Modelling conventions:
* Scores (PostgreSQL ranks, trigram similarities, weights) are rationals (`Rat`),
  representing the floating point values exactly at the small concrete inputs used here.
* The database is an explicit value: a list of transcripts and a list of segments.
* PostgreSQL-side primitives (full-text match, full-text rank, trigram similarity)
  are oracle functions collected in a `Backend` record; the Python code under
  verification only composes them.
* Python `None`-able query strings are `Option String`; Python `str.strip` is
  `pyStrip`, whitespace-stripping on the underlying character list.
* SQL `ORDER BY` leaves the relative order of ties unspecified; it is modelled as a
  stable insertion sort over the base table order.
* `django.db.models.functions.Greatest` raises
  `ValueError("Greatest must take at least two expressions")` when constructed with
  fewer than two expressions, so the hybrid path is a fallible computation and is
  embedded as `Except String _`.
* `search.py` defines `vector_search_segments` twice; the second definition
  (lines 117-130, the placeholder returning an empty queryset) shadows the first,
  so the effective function is the placeholder and is embedded as such.
-/

/-- A row of `transcripts_transcript`.  Only the fields the search core reads are kept:
the primary key and `created_at` (which drives the model's default ordering
`["-created_at"]`, used by Django when a queryset is ordered by the `transcript`
relation). -/
structure Transcript where
  id : Nat
  createdAt : Nat
deriving DecidableEq

/-- A row of `transcripts_srtsegment`: primary key, owning transcript, ordinal
`segment_index`, the segment's own `text`, and whether `embedding` is non-null. -/
structure Segment where
  id : Nat
  transcriptId : Nat
  segmentIndex : Nat
  text : String
  hasEmbedding : Bool
deriving DecidableEq

/-- The database state visible to the search functions. -/
structure Db where
  transcripts : List Transcript
  segments : List Segment

/-- The PostgreSQL-side primitives the ORM expressions compile to, as oracles:
`ftsMatch q tid` is `search_vector @@ websearch_to_tsquery(q)` for transcript `tid`,
`ftsRank q tid` is `ts_rank` of the same pair, and `trigramSim t q` is
`similarity(t, q)` from `pg_trgm` (argument order as in `TrigramSimilarity("text", query)`:
stored text first, query second). -/
structure Backend where
  ftsMatch : String → Nat → Bool
  ftsRank : String → Nat → Rat
  trigramSim : String → String → Rat

/-- The `SearchConfig` model.  `default_search_type` and the three weights are the
fields declared in `src/transcripts/models.py` (lines 106-135).

Modelled from the spec: the boolean fields `fts_enabled`, `trigram_enabled` and
`vector_enabled` are missing from `models.py` as shipped — only their callers
(`search.py`) and the test suite (`tests.py`) mention them.  They are added here
following the spec's data model ("three independent booleans
`ftsEnabled, trigramEnabled, vectorEnabled`"). -/
structure SearchConfig where
  default_search_type : String
  fts_enabled : Bool
  trigram_enabled : Bool
  vector_enabled : Bool
  fts_weight : Rat
  trigram_weight : Rat
  vector_weight : Rat
deriving DecidableEq

/-- Modelled from the spec: `get_enabled_methods` is called by `search.py` and
exercised by `tests.py` but its definition is missing from `models.py` as shipped.
Per the spec, it "returns exactly the subset of `{fts, trigram, vector}` whose
boolean flag is true, and `[]` when all are false"; the tests pin the element
order to `fts, trigram, vector`. -/
def SearchConfig.get_enabled_methods (c : SearchConfig) : List String :=
  (if c.fts_enabled then ["fts"] else []) ++
    (if c.trigram_enabled then ["trigram"] else []) ++
      (if c.vector_enabled then ["vector"] else [])

/-- Modelled from the spec: `is_method_enabled` is called by `search.py` and
exercised by `tests.py` but its definition is missing from `models.py` as shipped.
Per the spec it "mirrors the corresponding boolean for valid names and is `false`
for any unrecognized name". -/
def SearchConfig.is_method_enabled (c : SearchConfig) (name : String) : Bool :=
  if name = "fts" then c.fts_enabled
  else if name = "trigram" then c.trigram_enabled
  else if name = "vector" then c.vector_enabled
  else false

/-- The field defaults of the `SearchConfig` model: `default_search_type="hybrid"`,
weights `0.3 / 0.3 / 0.4` (written `mkRat` to stay kernel-computable; from
`models.py`); enabled flags default to
fts/trigram on, vector off (modelled from the spec and pinned by
`tests.py::test_default_search_config_creation`). -/
def defaultSearchConfig : SearchConfig where
  default_search_type := "hybrid"
  fts_enabled := true
  trigram_enabled := true
  vector_enabled := false
  fts_weight := mkRat 3 10
  trigram_weight := mkRat 3 10
  vector_weight := mkRat 2 5

/-- `get_search_config` (search.py lines 31-34):
`SearchConfig.objects.get_or_create(pk=1)`.  The persisted configuration row is an
`Option SearchConfig`; the function returns the configuration in effect together
with the store after the get-or-create. -/
def get_search_config (store : Option SearchConfig) : SearchConfig × Option SearchConfig :=
  match store with
  | some c => (c, some c)
  | none => (defaultSearchConfig, some defaultSearchConfig)

/-- Persisting a configuration row (`SearchConfig.objects.create(...)` / `save()`). -/
def save_search_config (c : SearchConfig) (_store : Option SearchConfig) :
    Option SearchConfig :=
  some c

/-- Python `str.strip()`: drop leading and trailing whitespace. -/
def pyStrip (s : String) : String :=
  ⟨((s.data.dropWhile Char.isWhitespace).reverse.dropWhile Char.isWhitespace).reverse⟩

/-- The guard `if not query or not query.strip():` shared by every search function:
true for a missing query, the empty string, or a whitespace-only string. -/
def isBlank : Option String → Bool
  | none => true
  | some s => s == "" || pyStrip s == ""

/-- Descending-score comparison used to model `order_by("-similarity")` and
`order_by("-combined_score")` on `(id, score)` rows. -/
def scoreDescLe (a b : Nat × Rat) : Prop :=
  b.2 ≤ a.2

instance : DecidableRel scoreDescLe := fun a b =>
  inferInstanceAs (Decidable (b.2 ≤ a.2))

instance : IsTotal (Nat × Rat) scoreDescLe :=
  ⟨fun a b => le_total b.2 a.2⟩

instance : IsTrans (Nat × Rat) scoreDescLe :=
  ⟨fun _ _ _ hab hbc => le_trans hbc hab⟩

/-- `trigram_search_segments` (search.py lines 37-52): annotate every segment with
`TrigramSimilarity("text", query)`, keep those with `similarity__gt=0.05` (the
threshold `0.05` is `mkRat 1 20`), order by similarity descending. -/
def trigram_search_segments (db : Db) (backend : Backend) (query : Option String) :
    List (Nat × Rat) :=
  if isBlank query then [] else
  List.insertionSort scoreDescLe
    ((db.segments.map
        (fun s => (s.id, backend.trigramSim s.text (pyStrip (query.getD ""))))).filter
      (fun p => mkRat 1 20 < p.2))

/-- The `created_at` of the transcript with primary key `tid` (0 if absent);
foreign keys in the data sets below always resolve. -/
def transcriptCreatedAt (db : Db) (tid : Nat) : Nat :=
  ((db.transcripts.find? (fun t => t.id == tid)).map Transcript.createdAt).getD 0

/-- The sort key of `order_by("transcript", "segment_index")` on segments: Django
expands ordering by the `transcript` relation into the related model's default
ordering `["-created_at"]`, then `segment_index` ascending. -/
def ftsOrderKeyLe (db : Db) (a b : Segment) : Prop :=
  transcriptCreatedAt db b.transcriptId < transcriptCreatedAt db a.transcriptId
    ∨ (transcriptCreatedAt db a.transcriptId = transcriptCreatedAt db b.transcriptId
        ∧ a.segmentIndex ≤ b.segmentIndex)

instance (db : Db) : DecidableRel (ftsOrderKeyLe db) := fun a b => by
  unfold ftsOrderKeyLe
  exact inferInstance

instance (db : Db) : IsTotal Segment (ftsOrderKeyLe db) := by
  constructor
  intro a b
  unfold ftsOrderKeyLe
  omega

instance (db : Db) : IsTrans Segment (ftsOrderKeyLe db) := by
  constructor
  intro a b c hab hbc
  unfold ftsOrderKeyLe at *
  omega

/-- The segment list built by `fts_search_segments` for an already-stripped query:
segments whose transcript passes the full-text match, in the
`order_by("transcript", "segment_index")` order. -/
def ftsOrderedSegments (db : Db) (backend : Backend) (q : String) : List Segment :=
  List.insertionSort (ftsOrderKeyLe db)
    (db.segments.filter (fun s =>
      (db.transcripts.filter (fun t => backend.ftsMatch q t.id)).any
        (fun t => t.id == s.transcriptId)))

/-- `fts_search_segments` (search.py lines 94-114): filter transcripts by the
full-text match, then return all segments whose transcript is among the matches,
`order_by("transcript", "segment_index")`.  No rank is computed and no score is
attached to the returned segments. -/
def fts_search_segments (db : Db) (backend : Backend) (query : Option String) :
    List Nat :=
  if isBlank query then [] else
  (ftsOrderedSegments db backend (pyStrip (query.getD ""))).map Segment.id

/-- `vector_search_segments`: the second definition in search.py (lines 117-130)
shadows the first, so the effective function is the placeholder: after the blank
check it returns `SRTSegment.objects.none()` unconditionally. -/
def vector_search_segments (db : Db) (query : Option String) : List Nat :=
  if isBlank query then [] else
  let _ := db
  []

/-- `django.db.models.functions.Greatest`: constructing it with fewer than two
expressions raises `ValueError("Greatest must take at least two expressions")`;
with enough expressions it is SQL `GREATEST`, i.e. the row-wise maximum.  Expressions
are modelled as per-segment score functions. -/
def djangoGreatest (components : List (Segment → Rat)) :
    Except String (Segment → Rat) :=
  if components.length < 2 then
    .error "Greatest must take at least two expressions"
  else
    .ok (fun s =>
      match components.map (fun f => f s) with
      | [] => 0
      | x :: xs => xs.foldl max x)

/-- The candidate-id union built by `hybrid_search_segments` (search.py lines
148-163): ids from each enabled strategy, each strategy invoked with the stripped
query.  The Python `set` is used only for membership, so a concatenated list
stands in for it. -/
def hybridCandidateIds (db : Db) (backend : Backend) (cfg : SearchConfig)
    (query : Option String) : List Nat :=
  let qs : Option String := some (pyStrip (query.getD ""))
  let enabled := cfg.get_enabled_methods
  (if "trigram" ∈ enabled then (trigram_search_segments db backend qs).map Prod.fst
   else []) ++
    (if "fts" ∈ enabled then fts_search_segments db backend qs else []) ++
      (if "vector" ∈ enabled then vector_search_segments db qs else [])

/-- `hybrid_search_segments` (search.py lines 133-197).  After the blank-query,
empty-enabled-set and empty-candidate-union short circuits, the candidates are
annotated: `trigram_score` is `TrigramSimilarity("text", query)` when trigram is
enabled and the constant `0.0` otherwise; `score_components` contains the single
expression `trigram_score * trigram_weight` when trigram is enabled (no fts or
vector component is ever appended).  If any component exists, `combined_score` is
`Greatest(*score_components)` — which raises, since exactly one expression is
passed — otherwise `combined_score` is `0.0`; finally
`order_by("-combined_score")`. -/
def hybrid_search_segments (db : Db) (backend : Backend) (cfg : SearchConfig)
    (query : Option String) : Except String (List (Nat × Rat)) :=
  if isBlank query then .ok [] else
  let q := pyStrip (query.getD "")
  let enabled := cfg.get_enabled_methods
  if enabled.isEmpty then .ok [] else
  let combinedIds := hybridCandidateIds db backend cfg query
  if combinedIds.isEmpty then .ok [] else
  let results := db.segments.filter (fun s => combinedIds.contains s.id)
  let trigramScore : Segment → Rat :=
    fun s => if "trigram" ∈ enabled then backend.trigramSim s.text q else 0
  let scoreComponents : List (Segment → Rat) :=
    if "trigram" ∈ enabled then [fun s => trigramScore s * cfg.trigram_weight] else []
  match
    (if scoreComponents.isEmpty then Except.ok (fun _ => (0 : Rat))
     else djangoGreatest scoreComponents) with
  | .error e => .error e
  | .ok combineFn =>
    .ok (List.insertionSort scoreDescLe (results.map (fun s => (s.id, combineFn s))))

/-- `search_segments` (search.py lines 200-233), the dispatcher: resolve the
requested type (defaulting to `config.default_search_type`), fall back to
`"hybrid"` when a non-hybrid type is not enabled, then dispatch.  The result set
is the ordered list of segment ids. -/
def search_segments (db : Db) (backend : Backend) (cfg : SearchConfig)
    (query : Option String) (searchType : Option String) :
    Except String (List Nat) :=
  if isBlank query then .ok [] else
  let st0 := searchType.getD cfg.default_search_type
  let st := if st0 ≠ "hybrid" ∧ cfg.is_method_enabled st0 = false then "hybrid" else st0
  if st = "trigram" ∧ cfg.trigram_enabled then
    .ok ((trigram_search_segments db backend query).map Prod.fst)
  else if st = "fts" ∧ cfg.fts_enabled then
    .ok (fts_search_segments db backend query)
  else if st = "vector" then
    .ok (vector_search_segments db query)
  else
    (hybrid_search_segments db backend cfg query).map (fun l => l.map Prod.fst)

/-- Transcripts compared by full-text rank, descending (used only by
`fts_search_spec` below). -/
def rankDescLe (backend : Backend) (q : String) (a b : Transcript) : Prop :=
  backend.ftsRank q b.id ≤ backend.ftsRank q a.id

instance (backend : Backend) (q : String) : DecidableRel (rankDescLe backend q) :=
  fun a b => inferInstanceAs (Decidable (backend.ftsRank q b.id ≤ backend.ftsRank q a.id))

/-- Segments compared by their ordinal, ascending (used only by `fts_search_spec`
below). -/
def ordinalLe (a b : Segment) : Prop :=
  a.segmentIndex ≤ b.segmentIndex

instance : DecidableRel ordinalLe :=
  fun a b => inferInstanceAs (Decidable (a.segmentIndex ≤ b.segmentIndex))

/-- Modelled from the spec (for comparison against `fts_search_segments`, which is
the authority): the lexical strategy as the spec words it — "It ranks transcripts,
then expands each matching transcript into all of its segments, ordered by
(transcript rank descending, segment ordinal ascending) ... All segments of a
matching transcript receive the same raw score (the transcript's rank)." -/
def fts_search_spec (db : Db) (backend : Backend) (query : Option String) :
    List (Nat × Rat) :=
  if isBlank query then [] else
  let q := pyStrip (query.getD "")
  let matching := db.transcripts.filter (fun t => backend.ftsMatch q t.id)
  let ranked := List.insertionSort (rankDescLe backend q) matching
  (ranked.map (fun t =>
      (List.insertionSort ordinalLe
          (db.segments.filter (fun s => s.transcriptId == t.id))).map
        (fun s => (s.id, backend.ftsRank q t.id)))).flatten

instance {ε α : Type} [DecidableEq ε] [DecidableEq α] : DecidableEq (Except ε α) :=
  fun a b =>
    match a, b with
    | .error e, .error f => decidable_of_iff (e = f) (by simp)
    | .error _, .ok _ => isFalse (fun h => Except.noConfusion h)
    | .ok _, .error _ => isFalse (fun h => Except.noConfusion h)
    | .ok x, .ok y => decidable_of_iff (x = y) (by simp)

/-- A one-transcript, one-segment corpus whose only segment has trigram similarity
2/5 to the query "hello" and no full-text match. -/
def exDb1 : Db where
  transcripts := [⟨1, 1⟩]
  segments := [⟨1, 1, 0, "hello world", false⟩]

def exBackend1 : Backend where
  ftsMatch := fun _ _ => false
  ftsRank := fun _ _ => 0
  trigramSim := fun t q => if t = "hello world" ∧ q = "hello" then mkRat 2 5 else 0

/-- A corpus whose only segment carries an embedding. -/
def exDb3 : Db where
  transcripts := [⟨1, 1⟩]
  segments := [⟨1, 1, 0, "hello world", true⟩]

/-- Two matching transcripts whose full-text rank order (transcript 2 first)
disagrees with their `created_at` order (transcript 1 first); one segment each. -/
def exDb4 : Db where
  transcripts := [⟨1, 10⟩, ⟨2, 5⟩]
  segments := [⟨1, 1, 0, "segment one", false⟩, ⟨2, 2, 0, "segment two", false⟩]

def exBackend4 : Backend where
  ftsMatch := fun _ _ => true
  ftsRank := fun _ tid => if tid = 1 then mkRat 1 10 else mkRat 9 10
  trigramSim := fun _ _ => 0

/-- A corpus where transcript 1 passes the full-text match; trigram similarity is
always 0. -/
def exDb10 : Db where
  transcripts := [⟨1, 1⟩]
  segments := [⟨1, 1, 0, "segment text", false⟩]

def exBackend10 : Backend where
  ftsMatch := fun _ tid => tid == 1
  ftsRank := fun _ _ => mkRat 1 2
  trigramSim := fun _ _ => 0

/-- The default configuration with trigram switched off (fts on, vector off). -/
def exCfgFtsOnly : SearchConfig :=
  { defaultSearchConfig with trigram_enabled := false }

/-- A configuration with all three strategies disabled. -/
def exCfgNone : SearchConfig :=
  { defaultSearchConfig with fts_enabled := false, trigram_enabled := false }

/-- The custom configuration of the weight-persistence scenario:
weights fts=0.5, trigram=0.3, vector=0.2. -/
def customWeightsConfig : SearchConfig :=
  { defaultSearchConfig with
      fts_weight := mkRat 1 2
      trigram_weight := mkRat 3 10
      vector_weight := mkRat 1 5 }

example : trigram_search_segments
    { transcripts := [⟨1, 5⟩],
      segments := [⟨1, 1, 0, "hello world", false⟩, ⟨2, 1, 1, "zzz", false⟩] }
    { ftsMatch := fun _ _ => false, ftsRank := fun _ _ => 0,
      trigramSim := fun t q => if t = "hello world" ∧ q = "hello" then mkRat 2 5 else 0 }
    (some "hello") = [(1, mkRat 2 5)] := by decide

example : vector_search_segments
    { transcripts := [], segments := [] } (some "hi") = [] := by decide

/-! ## Theorems -/

/-- Membership in the (spec-modelled) enabled-methods list, characterised by the
three boolean flags. -/
lemma mem_get_enabled_methods (cfg : SearchConfig) (m : String) :
    m ∈ cfg.get_enabled_methods ↔
      (m = "fts" ∧ cfg.fts_enabled = true) ∨ (m = "trigram" ∧ cfg.trigram_enabled = true)
        ∨ (m = "vector" ∧ cfg.vector_enabled = true) := by
  unfold SearchConfig.get_enabled_methods
  cases hf : cfg.fts_enabled <;> cases ht : cfg.trigram_enabled <;>
    cases hv : cfg.vector_enabled <;> simp

/-- C6: for every query that is missing, empty, or whitespace-only, each of the
three strategy functions, hybrid search, and the dispatcher return an empty
result without error, for every requested type and every configuration. -/
theorem blank_query_yields_empty_everywhere (db : Db) (backend : Backend)
    (cfg : SearchConfig) (q st : Option String)
    (h : q = none ∨ ∃ s, q = some s ∧ pyStrip s = "") :
    fts_search_segments db backend q = []
    ∧ trigram_search_segments db backend q = []
    ∧ vector_search_segments db q = []
    ∧ hybrid_search_segments db backend cfg q = .ok []
    ∧ search_segments db backend cfg q st = .ok [] := by
  have hb : isBlank q = true := by
    rcases h with rfl | ⟨s, rfl, hs⟩
    · rfl
    · simp [isBlank, hs]
  exact ⟨by simp [fts_search_segments, hb], by simp [trigram_search_segments, hb],
    by simp [vector_search_segments, hb], by simp [hybrid_search_segments, hb],
    by simp [search_segments, hb]⟩

/-- Witness for C6 at the whitespace-only query `"   "`. -/
theorem blank_query_yields_empty_witness :
    fts_search_segments exDb1 exBackend1 (some "   ") = []
    ∧ trigram_search_segments exDb1 exBackend1 (some "   ") = []
    ∧ vector_search_segments exDb1 (some "   ") = []
    ∧ hybrid_search_segments exDb1 exBackend1 defaultSearchConfig (some "   ") = .ok []
    ∧ search_segments exDb1 exBackend1 defaultSearchConfig (some "   ") (some "fts") = .ok [] :=
  blank_query_yields_empty_everywhere exDb1 exBackend1 defaultSearchConfig (some "   ")
    (some "fts") (Or.inr ⟨"   ", rfl, by decide⟩)

/-- C1: evaluation of the code at the failing input.  With the default
configuration (trigram enabled) and a corpus where the trigram strategy returns a
candidate, `hybrid_search_segments` does not produce weighted combined scores at
all: it raises `ValueError`, because `Greatest` is constructed with the single
expression `trigram_score * trigram_weight`. -/
theorem hybrid_trigram_greatest_value_error :
    hybrid_search_segments exDb1 exBackend1 defaultSearchConfig (some "hello")
      = .error "Greatest must take at least two expressions" := by decide

/-- C3 counterexample: the corpus `exDb3` contains a segment with an embedding,
yet `vector_search_segments` returns the empty result, contradicting the claim
that it returns exactly the segments that have an embedding. -/
theorem vector_search_counterexample :
    exDb3.segments.any Segment.hasEmbedding = true
    ∧ vector_search_segments exDb3 (some "hello") = [] := by decide

/-- C3 amended: the effective `vector_search_segments` (the second, shadowing
definition) returns the empty sequence for every query and every corpus; in
particular segments without an embedding never appear in its result. -/
theorem vector_search_placeholder_empty (db : Db) (q : Option String) :
    vector_search_segments db q = [] := by
  unfold vector_search_segments
  split <;> rfl

/-- C4 counterexample: on `exDb4` both transcripts match, transcript 2 has the
higher full-text rank, but the code returns transcript 1's segment first (the
`created_at`-descending default ordering), while the spec's rank-descending
expansion (`fts_search_spec`) returns transcript 2's segment first. -/
theorem fts_rank_order_counterexample :
    fts_search_segments exDb4 exBackend4 (some "q") = [1, 2]
    ∧ (fts_search_spec exDb4 exBackend4 (some "q")).map Prod.fst = [2, 1]
    ∧ fts_search_segments exDb4 exBackend4 (some "q")
        ≠ (fts_search_spec exDb4 exBackend4 (some "q")).map Prod.fst := by decide

/-- C8: a missing configuration row is not an error — `get_search_config`
synthesizes and persists the default record (type `hybrid`, fts and trigram
enabled, vector disabled, weights 0.3/0.3/0.4), and a persisted configuration is
reloaded unchanged; in particular the custom weights 0.5/0.3/0.2 round-trip
exactly. -/
theorem search_config_defaults_and_weight_roundtrip (store : Option SearchConfig)
    (c : SearchConfig) :
    (get_search_config none).1 = defaultSearchConfig
    ∧ (get_search_config none).2 = some defaultSearchConfig
    ∧ defaultSearchConfig.default_search_type = "hybrid"
    ∧ defaultSearchConfig.fts_enabled = true
    ∧ defaultSearchConfig.trigram_enabled = true
    ∧ defaultSearchConfig.vector_enabled = false
    ∧ defaultSearchConfig.fts_weight = mkRat 3 10
    ∧ defaultSearchConfig.trigram_weight = mkRat 3 10
    ∧ defaultSearchConfig.vector_weight = mkRat 2 5
    ∧ (get_search_config (save_search_config c store)).1 = c
    ∧ (get_search_config (save_search_config customWeightsConfig store)).1.fts_weight
        = mkRat 1 2
    ∧ (get_search_config (save_search_config customWeightsConfig store)).1.trigram_weight
        = mkRat 3 10
    ∧ (get_search_config (save_search_config customWeightsConfig store)).1.vector_weight
        = mkRat 1 5 :=
  ⟨rfl, rfl, rfl, rfl, rfl, rfl, rfl, rfl, rfl, rfl, rfl, rfl, rfl⟩

/-- C4 amended: for every non-empty query, `fts_search_segments` returns exactly
the ids of all segments of every transcript matched by the lexical index — a
segment's own text never enters the inclusion condition — but ordered by the
transcript relation's default ordering (`created_at` descending) then segment
ordinal ascending, and with no score attached (the transcript rank is never
computed). -/
theorem fts_segments_inherit_match_default_order (db : Db) (backend : Backend)
    (q : Option String) (hq : isBlank q = false) :
    fts_search_segments db backend q
        = (ftsOrderedSegments db backend (pyStrip (q.getD ""))).map Segment.id
    ∧ List.Sorted (ftsOrderKeyLe db) (ftsOrderedSegments db backend (pyStrip (q.getD "")))
    ∧ ∀ s : Segment, s ∈ ftsOrderedSegments db backend (pyStrip (q.getD "")) ↔
        (s ∈ db.segments ∧ ∃ t ∈ db.transcripts,
          backend.ftsMatch (pyStrip (q.getD "")) t.id = true ∧ t.id = s.transcriptId) := by
  refine ⟨?_, ?_, ?_⟩
  · unfold fts_search_segments
    simp [hq]
  · exact List.sorted_insertionSort _ _
  · intro s
    simp only [ftsOrderedSegments, List.mem_insertionSort, List.mem_filter,
      List.any_eq_true, beq_iff_eq]
    tauto

/-- Witness for C4 at the concrete corpus `exDb4` and query `"q"`. -/
theorem fts_segments_inherit_match_witness :
    fts_search_segments exDb4 exBackend4 (some "q")
      = (ftsOrderedSegments exDb4 exBackend4 (pyStrip ((some "q").getD ""))).map Segment.id :=
  (fts_segments_inherit_match_default_order exDb4 exBackend4 (some "q") (by decide)).1

/-- C5: the trigram strategy never returns a candidate whose similarity is ≤ 0.05
(`mkRat 1 20`) — the threshold is strict — and its result is ordered by similarity
descending. -/
theorem trigram_strict_threshold_and_desc_order (db : Db) (backend : Backend)
    (q : Option String) :
    (∀ p ∈ trigram_search_segments db backend q, mkRat 1 20 < p.2)
    ∧ List.Sorted scoreDescLe (trigram_search_segments db backend q) := by
  constructor
  · intro p hp
    unfold trigram_search_segments at hp
    split at hp
    · simp at hp
    · rw [List.mem_insertionSort, List.mem_filter] at hp
      exact of_decide_eq_true hp.2
  · unfold trigram_search_segments
    split
    · exact List.sorted_nil
    · exact List.sorted_insertionSort scoreDescLe _

/-- Witness for C5: the candidate `(1, 2/5)` is returned on `exDb1` and its
similarity exceeds the 0.05 threshold. -/
theorem trigram_strict_threshold_witness :
    (1, mkRat 2 5) ∈ trigram_search_segments exDb1 exBackend1 (some "hello")
    ∧ mkRat 1 20 < mkRat 2 5 :=
  ⟨by decide,
    (trigram_strict_threshold_and_desc_order exDb1 exBackend1 (some "hello")).1
      (1, mkRat 2 5) (by decide)⟩

/-- C2: requesting a type in `{fts, trigram, vector}` whose enabled flag is false
returns exactly what requesting `hybrid` returns on the same query and
configuration — the fallback goes to hybrid, not to the configured default
type. -/
theorem disabled_type_requests_fall_back_to_hybrid (db : Db) (backend : Backend)
    (cfg : SearchConfig) (q : Option String) (t : String)
    (ht : (t = "fts" ∧ cfg.fts_enabled = false) ∨ (t = "trigram" ∧ cfg.trigram_enabled = false)
        ∨ (t = "vector" ∧ cfg.vector_enabled = false)) :
    search_segments db backend cfg q (some t)
      = search_segments db backend cfg q (some "hybrid") := by
  unfold search_segments
  by_cases hb : isBlank q = true
  · simp [hb]
  · rcases ht with ⟨rfl, he⟩ | ⟨rfl, he⟩ | ⟨rfl, he⟩ <;>
      simp [hb, SearchConfig.is_method_enabled, he]

/-- Witness for C2: requesting the disabled `trigram` type equals requesting
`hybrid` on `exCfgFtsOnly`. -/
theorem disabled_type_fallback_witness :
    search_segments exDb10 exBackend10 exCfgFtsOnly (some "hello") (some "trigram")
      = search_segments exDb10 exBackend10 exCfgFtsOnly (some "hello") (some "hybrid") :=
  disabled_type_requests_fall_back_to_hybrid exDb10 exBackend10 exCfgFtsOnly (some "hello")
    "trigram" (Or.inr (Or.inl ⟨rfl, rfl⟩))

/-- C7: for every query, hybrid search returns the empty result — not an error —
whenever the union of candidate ids produced by the enabled strategies is empty,
and in particular whenever zero strategies are enabled, regardless of corpus
contents. -/
theorem hybrid_empty_candidate_union_yields_empty (db : Db) (backend : Backend)
    (cfg : SearchConfig) (q : Option String)
    (h : hybridCandidateIds db backend cfg q = [] ∨ cfg.get_enabled_methods = []) :
    hybrid_search_segments db backend cfg q = .ok [] := by
  unfold hybrid_search_segments
  by_cases hb : isBlank q = true
  · simp [hb]
  · rcases h with h | h
    · by_cases he : cfg.get_enabled_methods.isEmpty = true
      · simp [hb, he]
      · simp [hb, he, h]
    · simp [hb, h]

/-- Witness for C7 on the all-disabled configuration. -/
theorem hybrid_empty_candidate_union_witness :
    hybrid_search_segments exDb1 exBackend1 exCfgNone (some "test") = .ok [] :=
  hybrid_empty_candidate_union_yields_empty exDb1 exBackend1 exCfgNone (some "test")
    (Or.inr (by decide))

/-- C9: `get_enabled_methods` returns exactly the subset of
`{fts, trigram, vector}` whose boolean flag is true (the empty list when all
three are false), and `is_method_enabled` mirrors the corresponding boolean for
those three names and is `false` — never an error — for any other name. -/
theorem enabled_methods_and_is_enabled_spec (cfg : SearchConfig) (name : String) :
    (∀ m : String, m ∈ cfg.get_enabled_methods ↔
        (m = "fts" ∧ cfg.fts_enabled = true) ∨ (m = "trigram" ∧ cfg.trigram_enabled = true)
          ∨ (m = "vector" ∧ cfg.vector_enabled = true))
    ∧ (cfg.fts_enabled = false → cfg.trigram_enabled = false → cfg.vector_enabled = false →
        cfg.get_enabled_methods = [])
    ∧ cfg.is_method_enabled "fts" = cfg.fts_enabled
    ∧ cfg.is_method_enabled "trigram" = cfg.trigram_enabled
    ∧ cfg.is_method_enabled "vector" = cfg.vector_enabled
    ∧ (name ≠ "fts" → name ≠ "trigram" → name ≠ "vector" →
        cfg.is_method_enabled name = false) := by
  refine ⟨mem_get_enabled_methods cfg, ?_, ?_, ?_, ?_, ?_⟩
  · intro h1 h2 h3
    simp [SearchConfig.get_enabled_methods, h1, h2, h3]
  · simp [SearchConfig.is_method_enabled]
  · simp [SearchConfig.is_method_enabled]
  · simp [SearchConfig.is_method_enabled]
  · intro h1 h2 h3
    simp [SearchConfig.is_method_enabled, h1, h2, h3]

/-- Witness for C9: the unrecognized name `"invalid"` is reported disabled, and
`"fts"` is listed as enabled in the default configuration. -/
theorem enabled_methods_spec_witness :
    defaultSearchConfig.is_method_enabled "invalid" = false
    ∧ "fts" ∈ defaultSearchConfig.get_enabled_methods :=
  ⟨(enabled_methods_and_is_enabled_spec defaultSearchConfig "invalid").2.2.2.2.2
      (by decide) (by decide) (by decide),
    ((enabled_methods_and_is_enabled_spec defaultSearchConfig "fts").1 "fts").2
      (Or.inl ⟨rfl, rfl⟩)⟩

/-- When trigram is not enabled, the hybrid path never reaches `Greatest`: it
returns `ok` of either the empty list or the candidate list scored with the
constant `0.0`. -/
lemma hybrid_no_trigram_eval (db : Db) (backend : Backend) (cfg : SearchConfig)
    (q : Option String) (h : "trigram" ∉ cfg.get_enabled_methods) :
    hybrid_search_segments db backend cfg q = .ok []
    ∨ hybrid_search_segments db backend cfg q
        = .ok (List.insertionSort scoreDescLe
            ((db.segments.filter
                (fun s => (hybridCandidateIds db backend cfg q).contains s.id)).map
              (fun s => (s.id, 0)))) := by
  unfold hybrid_search_segments
  by_cases hb : isBlank q = true
  · left; simp [hb]
  · by_cases he : cfg.get_enabled_methods.isEmpty = true
    · left; simp [hb, he]
    · by_cases hc : (hybridCandidateIds db backend cfg q).isEmpty = true
      · left; simp [hb, he, hc]
      · right; simp [hb, he, hc, h]

/-- C10: only the trigram signal ever enters the combined score — for every query
and every configuration in which `trigram` is not among the enabled methods,
hybrid search does not error and every returned candidate has combined score
exactly 0 (fts and vector raw scores and weights never contribute). -/
theorem hybrid_score_zero_when_trigram_not_enabled (db : Db) (backend : Backend)
    (cfg : SearchConfig) (q : Option String)
    (h : "trigram" ∉ cfg.get_enabled_methods) :
    (∀ e : String, hybrid_search_segments db backend cfg q ≠ .error e)
    ∧ ∀ (res : List (Nat × Rat)) (p : Nat × Rat),
        hybrid_search_segments db backend cfg q = .ok res → p ∈ res → p.2 = 0 := by
  rcases hybrid_no_trigram_eval db backend cfg q h with heq | heq
  · constructor
    · intro e hcon
      rw [heq] at hcon
      exact Except.noConfusion hcon
    · intro res p hres hp
      rw [heq] at hres
      injection hres with h2
      subst h2
      exact absurd hp (List.not_mem_nil p)
  · constructor
    · intro e hcon
      rw [heq] at hcon
      exact Except.noConfusion hcon
    · intro res p hres hp
      rw [heq] at hres
      injection hres with h2
      subst h2
      rw [List.mem_insertionSort] at hp
      obtain ⟨s, _, rfl⟩ := List.mem_map.1 hp
      rfl

/-- Witness for C10: with fts-only configuration the single hybrid candidate
carries combined score 0. -/
theorem hybrid_score_zero_witness :
    hybrid_search_segments exDb10 exBackend10 exCfgFtsOnly (some "machine") = .ok [(1, 0)]
    ∧ ((1, (0 : Rat)) : Nat × Rat).2 = 0 :=
  ⟨by decide,
    (hybrid_score_zero_when_trigram_not_enabled exDb10 exBackend10 exCfgFtsOnly
        (some "machine") (by decide)).2 [(1, 0)] (1, 0) (by decide) (by decide)⟩
